import Mathlib

/-!
Verification development for TotoBot (src/TotoBot.py).

The file shallowly embeds the pure logic of the bot:
the staleness predicate `is_past_draw` (including a faithful model of
Python's `datetime.strptime` on the fixed format `"%a, %d %b %Y, %I:%M%p"`
and of the string canonicalization applied before parsing), the sqlite
`nextDraw` store (`store_next_draw` / `get_next_draw`), the tiered lookup
`get_data`, the selenium fetcher boundary `fetch_toto_info_selenium`, and
the broadcast loops `broadcast_cmd` / `send_toto_update`.

Stateful Python code is embedded by explicit state passing: the sqlite
`nextDraw` table is a list of rows in rowid order (sqlite's table-scan
order, which is what `SELECT ... LIMIT 1` without `ORDER BY` yields),
`datetime.now()` becomes an explicit `now` argument, and the selenium
session is an oracle describing which external steps succeed.
-/

namespace TotoBot

/-- Model of a Python naive `datetime` value.  `datetime.strptime` with the
fixed format produces one with `second = 0` and `usec = 0`; `datetime.now()`
may carry any subminute part.  Comparison of naive datetimes in Python is
lexicographic on (year, month, day, hour, minute, second, microsecond). -/
structure PyDateTime where
  year : Nat
  month : Nat
  day : Nat
  hour : Nat
  minute : Nat
  second : Nat
  usec : Nat
deriving DecidableEq

/-- Python's `<` on naive datetimes: lexicographic field comparison. -/
def pyLt (a b : PyDateTime) : Bool :=
  if a.year ≠ b.year then decide (a.year < b.year)
  else if a.month ≠ b.month then decide (a.month < b.month)
  else if a.day ≠ b.day then decide (a.day < b.day)
  else if a.hour ≠ b.hour then decide (a.hour < b.hour)
  else if a.minute ≠ b.minute then decide (a.minute < b.minute)
  else if a.second ≠ b.second then decide (a.second < b.second)
  else decide (a.usec < b.usec)

/-- Whitespace class used by Python's `str.strip` and by `\s` in the
regex that `strptime` compiles (ASCII part, which is all that occurs in
the fixed-format timestamps handled here). -/
def isPySpace (c : Char) : Bool :=
  c = ' ' || c = '\t' || c = '\n' || c = '\r' || c = '\x0b' || c = '\x0c'

/-- Numeric value of a decimal digit character. -/
def digitVal (c : Char) : Nat := c.toNat - 48

/-- Consume `pat` at the head of `s` exactly (case-sensitive); return the
rest on success. -/
def matchExact : List Char → List Char → Option (List Char)
  | [], s => some s
  | _ :: _, [] => none
  | p :: ps, c :: cs => if p = c then matchExact ps cs else none

/-- Consume `pat` at the head of `s` up to ASCII case (Python compiles the
strptime regex with `IGNORECASE`); return the rest on success. -/
def matchCI : List Char → List Char → Option (List Char)
  | [], s => some s
  | _ :: _, [] => none
  | p :: ps, c :: cs => if p.toLower = c.toLower then matchCI ps cs else none

/-- Abbreviated weekday names accepted by `%a` (C locale). -/
def weekdayNames : List String := ["Mon", "Tue", "Wed", "Thu", "Fri", "Sat", "Sun"]

/-- Abbreviated month names accepted by `%b` (C locale), with month numbers. -/
def monthNames : List (String × Nat) :=
  [("Jan", 1), ("Feb", 2), ("Mar", 3), ("Apr", 4), ("May", 5), ("Jun", 6),
   ("Jul", 7), ("Aug", 8), ("Sep", 9), ("Oct", 10), ("Nov", 11), ("Dec", 12)]

/-- Try to consume one of the weekday names (case-insensitively). -/
def matchWeekday (s : List Char) : List String → Option (List Char)
  | [] => none
  | nm :: rest =>
    match matchCI nm.data s with
    | some r => some r
    | none => matchWeekday s rest

/-- Try to consume one of the month names (case-insensitively), returning
the month number. -/
def matchMonth (s : List Char) : List (String × Nat) → Option (Nat × List Char)
  | [] => none
  | (nm, n) :: rest =>
    match matchCI nm.data s with
    | some r => some (n, r)
    | none => matchMonth s rest

/-- Model of `\s+` in the compiled strptime regex: at least one whitespace
character, consumed greedily. -/
def skipSpaces1 : List Char → Option (List Char)
  | c :: rest => if isPySpace c then some (rest.dropWhile isPySpace) else none
  | [] => none

/-- Consume one expected literal character. -/
def expectChar (ch : Char) : List Char → Option (List Char)
  | c :: rest => if c = ch then some rest else none
  | [] => none

/-- Model of `%d` as compiled by Python: the regex `3[01]|[12]\d|0[1-9]|[1-9]`,
alternatives tried in order. -/
def parseDayNum : List Char → Option (Nat × List Char)
  | c1 :: c2 :: rest =>
    if c1 = '3' && (c2 = '0' || c2 = '1') then some (30 + digitVal c2, rest)
    else if (c1 = '1' || c1 = '2') && c2.isDigit then
      some (10 * digitVal c1 + digitVal c2, rest)
    else if c1 = '0' && c2.isDigit && c2 ≠ '0' then some (digitVal c2, rest)
    else if c1.isDigit && c1 ≠ '0' then some (digitVal c1, c2 :: rest)
    else none
  | [c1] => if c1.isDigit && c1 ≠ '0' then some (digitVal c1, []) else none
  | [] => none

/-- Model of `%I` as compiled by Python: the regex `1[0-2]|0[1-9]|[1-9]`. -/
def parseHour12 : List Char → Option (Nat × List Char)
  | c1 :: c2 :: rest =>
    if c1 = '1' && (c2 = '0' || c2 = '1' || c2 = '2') then some (10 + digitVal c2, rest)
    else if c1 = '0' && c2.isDigit && c2 ≠ '0' then some (digitVal c2, rest)
    else if c1.isDigit && c1 ≠ '0' then some (digitVal c1, c2 :: rest)
    else none
  | [c1] => if c1.isDigit && c1 ≠ '0' then some (digitVal c1, []) else none
  | [] => none

/-- Model of `%M` as compiled by Python: the regex `[0-5]\d|\d`. -/
def parseMinute : List Char → Option (Nat × List Char)
  | c1 :: c2 :: rest =>
    if ('0' ≤ c1 && c1 ≤ '5') && c2.isDigit then
      some (10 * digitVal c1 + digitVal c2, rest)
    else if c1.isDigit then some (digitVal c1, c2 :: rest)
    else none
  | [c1] => if c1.isDigit then some (digitVal c1, []) else none
  | [] => none

/-- Model of `%Y` as compiled by Python: exactly four decimal digits. -/
def parseYear4 : List Char → Option (Nat × List Char)
  | c1 :: c2 :: c3 :: c4 :: rest =>
    if c1.isDigit && c2.isDigit && c3.isDigit && c4.isDigit then
      some (1000 * digitVal c1 + 100 * digitVal c2 + 10 * digitVal c3 + digitVal c4, rest)
    else none
  | _ => none

/-- Model of `%p` (C locale): `AM` or `PM`, case-insensitively; returns
`true` for PM. -/
def parseAmPm (s : List Char) : Option (Bool × List Char) :=
  match matchCI "am".data s with
  | some r => some (false, r)
  | none =>
    match matchCI "pm".data s with
    | some r => some (true, r)
    | none => none

/-- Gregorian leap-year rule, as used by Python's `datetime`. -/
def isLeapYear (y : Nat) : Bool := (y % 4 = 0 && y % 100 ≠ 0) || y % 400 = 0

/-- Days in a month, as validated by the `datetime` constructor. -/
def daysInMonth (y m : Nat) : Nat :=
  if m = 2 then (if isLeapYear y then 29 else 28)
  else if m = 4 || m = 6 || m = 9 || m = 11 then 30
  else 31

/-- Model of `datetime.strptime(s, "%a, %d %b %Y, %I:%M%p")`.

The format compiles to the anchored regex
`(weekday),\s+(%d)\s+(%b)\s+(\d{4}),\s+(%I):(%M)(am|pm)` matched
case-insensitively against the whole string (strptime raises
`unconverted data remains` when input is left over).  The parsed weekday
is not checked for consistency with the date, exactly as in Python.  The
`datetime` constructor then validates the calendar day and the year
(`%Y` admits `0000`, which the constructor rejects).  `%I` is converted
to a 24-hour value using the am/pm marker.  Returns `none` exactly when
Python's `strptime` raises `ValueError`.  The parse is split into a date
part and a time part, combined in `strptimeFixed`.

This first half consumes `(weekday),\s+(%d)\s+(%b)\s+(%Y)` and returns
(day, month, year, rest). -/
def parseDatePart (s : List Char) : Option (Nat × Nat × Nat × List Char) :=
  match matchWeekday s weekdayNames with
  | none => none
  | some r1 =>
  match expectChar ',' r1 with
  | none => none
  | some r2 =>
  match skipSpaces1 r2 with
  | none => none
  | some r3 =>
  match parseDayNum r3 with
  | none => none
  | some (day, r4) =>
  match skipSpaces1 r4 with
  | none => none
  | some r5 =>
  match matchMonth r5 monthNames with
  | none => none
  | some (month, r6) =>
  match skipSpaces1 r6 with
  | none => none
  | some r7 =>
  match parseYear4 r7 with
  | none => none
  | some (year, r8) => some (day, month, year, r8)

/-- Remainder of the fixed format after the date: `,\s+(%I):(%M)(%p)` and
end of input.  Returns the 12-hour value, the minute and the PM flag. -/
def parseTimePart (s : List Char) : Option (Nat × Nat × Bool) :=
  match expectChar ',' s with
  | none => none
  | some r9 =>
  match skipSpaces1 r9 with
  | none => none
  | some r10 =>
  match parseHour12 r10 with
  | none => none
  | some (h12, r11) =>
  match expectChar ':' r11 with
  | none => none
  | some r12 =>
  match parseMinute r12 with
  | none => none
  | some (minute, r13) =>
  match parseAmPm r13 with
  | none => none
  | some (pm, r14) => if r14 = [] then some (h12, minute, pm) else none

def strptimeFixed (s : List Char) : Option PyDateTime :=
  match parseDatePart s with
  | none => none
  | some (day, month, year, r8) =>
  match parseTimePart r8 with
  | none => none
  | some (h12, minute, pm) =>
    let hour := if pm then (if h12 = 12 then 12 else h12 + 12)
                else (if h12 = 12 then 0 else h12)
    if 1 ≤ year && day ≤ daysInMonth year month then
      some { year := year, month := month, day := day, hour := hour,
             minute := minute, second := 0, usec := 0 }
    else none

/-- One replacement step machine for Python's `str.replace`, driven by fuel
(the original string length bounds the number of scan steps, since every
step consumes at least one input character). -/
def replaceAllFuel (pat repl : List Char) : Nat → List Char → List Char
  | 0, s => s
  | _ + 1, [] => []
  | n + 1, c :: rest =>
    match matchExact pat (c :: rest) with
    | some dropped => repl ++ replaceAllFuel pat repl n dropped
    | none => c :: replaceAllFuel pat repl n rest

/-- Python's `str.replace(pat, repl)`: replace every non-overlapping
occurrence, scanning left to right. -/
def pyReplace (s pat repl : List Char) : List Char :=
  replaceAllFuel pat repl s.length s

/-- Python's `str.strip()`: drop leading and trailing whitespace. -/
def pyStripChars (s : List Char) : List Char :=
  ((s.dropWhile isPySpace).reverse.dropWhile isPySpace).reverse

/-- The canonicalization performed by `is_past_draw` before parsing:
`replace(" ,", ",")`, then `replace(" .", ".")`, then `strip()`, then
`replace(".", ":")`. -/
def cleanDraw (s : List Char) : List Char :=
  let a := pyReplace s " ,".data ",".data
  let b := pyReplace a " .".data ".".data
  let c := pyStripChars b
  pyReplace c ".".data ":".data

/-- Embedding of `is_past_draw(next_draw_str)` from src/TotoBot.py.

The ambient `datetime.now()` becomes the explicit argument `now`.  The
whole Python body runs inside `try ... except Exception: return True`, so
the embedding is a total Bool-valued function: a parse failure yields
`true` (treat as stale) and no exception ever reaches the caller. -/
def is_past_draw (next_draw_str : String) (now : PyDateTime) : Bool :=
  match strptimeFixed (cleanDraw next_draw_str.data) with
  | some dt => pyLt dt now
  | none => true

/-- Clock environment for the staleness check.  `datetime.now()` with no
timezone argument yields the civil time of the zone the host system is
configured with (`localNow`); `sgtNow` is the same physical instant read
in Asia/Singapore, the service's operating zone (`SCHEDULER_TZ` in the
source).  The two coincide exactly when the host zone is Asia/Singapore. -/
structure Clock where
  sgtNow : PyDateTime
  localNow : PyDateTime
deriving DecidableEq

/-- The staleness check as the bot actually invokes it: the source body is
`dt < datetime.now()`, i.e. the parsed naive timestamp is compared against
the host-local clock reading. -/
def is_past_draw_at_call (s : String) (clock : Clock) : Bool :=
  is_past_draw s clock.localNow

/-- Modelled from the spec (section 4.1): the comparison the spec asks
for, with the parsed timestamp interpreted in the fixed Asia/Singapore
zone and now taken in that same zone.  Used only to compare the source's
behaviour against the spec's words. -/
def specStaleInSGT (s : String) (clock : Clock) : Bool :=
  match strptimeFixed (cleanDraw s.data) with
  | some dt => pyLt dt clock.sgtNow
  | none => true

/-- One row of the sqlite `nextDraw` table: columns (next_draw, jackpot),
with `next_draw` the PRIMARY KEY. -/
abbrev Row := String × String

/-- Embedding of `store_next_draw(next_draw, jackpot)`: sqlite
`INSERT OR REPLACE INTO nextDraw (next_draw, jackpot) VALUES (?, ?)`.
The table is modelled as its rows in rowid order.  `INSERT OR REPLACE`
deletes any row with the same primary key `next_draw` and inserts the new
row, which receives a fresh maximal rowid and therefore scans last. -/
def store_next_draw (db : List Row) (next_draw jackpot : String) : List Row :=
  (db.filter fun r => r.1 ≠ next_draw) ++ [(next_draw, jackpot)]

/-- Embedding of `get_next_draw()`: sqlite
`SELECT next_draw, jackpot FROM nextDraw LIMIT 1`, with no ORDER BY, which
scans the table and returns its first row in rowid order (or None on an
empty table). -/
def get_next_draw (db : List Row) : Option Row := db.head?

/-- Process state visible to `get_data`.  `db` is the `nextDraw` table.
`memory` is the in-process memory tier the specification describes; the
source of `get_data` contains no such variable, so no code in this file
ever reads or writes it — the field exists so that claims phrased over
the memory tier can be stated against the code. -/
structure CacheState where
  memory : Option Row
  db : List Row
deriving DecidableEq

/-- Observable outcome of one `get_data()` call: the returned pair, the
state afterwards, and how many store reads, store writes and external
fetches the call performed. -/
structure GetDataRun where
  jackpot : Option String
  next_draw : Option String
  state : CacheState
  storeReads : Nat
  storeWrites : Nat
  fetches : Nat
deriving DecidableEq

/-- Python truthiness of an optional string: `None` and `""` are falsy. -/
def truthy : Option String → Bool
  | none => false
  | some s => decide (s ≠ "")

/-- The fetch branch of `get_data`:
`jackpot, next_draw = fetch_toto_info()` followed by
`if next_draw and jackpot: store_next_draw(next_draw, jackpot)`.
`fetched` is the `(jackpot, next_draw)` pair that `fetch_toto_info()`
returned.  The fetched pair is returned to the caller whether or not it
was persisted. -/
def fetchBranch (st : CacheState) (fetched : Option String × Option String) : GetDataRun :=
  if truthy fetched.2 && truthy fetched.1 then
    { jackpot := fetched.1, next_draw := fetched.2,
      state := { st with db := store_next_draw st.db (fetched.2.getD "") (fetched.1.getD "") },
      storeReads := 1, storeWrites := 1, fetches := 1 }
  else
    { jackpot := fetched.1, next_draw := fetched.2, state := st,
      storeReads := 1, storeWrites := 0, fetches := 1 }

/-- Embedding of `get_data()` from src/TotoBot.py.

It always starts with `record = get_next_draw()` (one store read).  When a
row exists it is unpacked as `next_draw, jackpot = record`.  The fetch is
triggered by `not jackpot or not next_draw or is_past_draw(next_draw)`;
Python's `or` short-circuits, so `is_past_draw` only ever receives an
actual string — mirrored here by matching on the row first.  `fetched` is
the pair a fetch attempt would return, `now` is `datetime.now()` as seen
inside `is_past_draw`. -/
def get_data (st : CacheState) (fetched : Option String × Option String)
    (now : PyDateTime) : GetDataRun :=
  match get_next_draw st.db with
  | some (nd, jp) =>
    if decide (jp = "") || decide (nd = "") || is_past_draw nd now then
      fetchBranch st fetched
    else
      { jackpot := some jp, next_draw := some nd, state := st,
        storeReads := 1, storeWrites := 0, fetches := 0 }
  | none => fetchBranch st fetched

/-- Oracle for one run of `fetch_toto_info_selenium()`: which of the
external selenium steps succeed.  `driverInitOk` is
`webdriver.Chrome(options=options)`, which the source executes before
entering its `try` block.  `getOk` covers `driver.get(...)` and the
render wait.  `jackpotText` / `drawText` are `some t` when the
corresponding `find_element` succeeds with element text `t`, and `none`
when it raises `NoSuchElementException`.  `driver.quit()` in the
`finally` clause is modelled as non-throwing cleanup. -/
structure FetchEnv where
  driverInitOk : Bool
  getOk : Bool
  jackpotText : Option String
  drawText : Option String

/-- Python's `str.strip()` on a `String`. -/
def pyStrip (s : String) : String := String.mk (pyStripChars s.data)

/-- Embedding of `fetch_toto_info_selenium()`.  An exception while
constructing the WebDriver happens outside the `try` block and propagates
(`Except.error`); every failure inside the `try` block is caught and
mapped to `(None, None)`.  On full success the result is the stripped
element texts, returned as `(jackpot, next_draw)`.  Note that a failure
to locate the draw-date element discards an already extracted jackpot:
the `except` arm returns `(None, None)`. -/
def fetch_toto_info_selenium (env : FetchEnv) :
    Except String (Option String × Option String) :=
  if env.driverInitOk then
    Except.ok
      (if env.getOk then
        match env.jackpotText with
        | none => (none, none)
        | some jt =>
          match env.drawText with
          | none => (none, none)
          | some dt => (some (pyStrip jt), some (pyStrip dt))
      else (none, none))
  else Except.error "WebDriverException"

/-- Embedding of `fetch_toto_info()`: `SCRAPING_ENABLED` is the constant
`True` in the source, so the disabled arm is dead and the function just
forwards the selenium result. -/
def fetch_toto_info (env : FetchEnv) :
    Except String (Option String × Option String) :=
  fetch_toto_info_selenium env

/-- The per-recipient delivery loop shared by `broadcast_cmd` and
`send_toto_update`: `for cid in subs:` with the `bot.send_message` call
inside `try`/`except`.  `deliver cid` tells whether delivery to `cid`
succeeds; on failure the handler continues with the next recipient
(`continue` in `broadcast_cmd`, a log line in `send_toto_update`), so the
loop proceeds past every outcome.  Returns the attempted recipients in
order, each with its delivery outcome. -/
def deliverLoop (deliver : Int → Bool) : List Int → List (Int × Bool)
  | [] => []
  | cid :: rest =>
    if deliver cid then (cid, true) :: deliverLoop deliver rest
    else (cid, false) :: deliverLoop deliver rest

/-- Outcome of one `broadcast_cmd` invocation: the delivery outcomes and
the reply text sent back to the admin afterwards. -/
structure BroadcastRun where
  outcomes : List (Int × Bool)
  reply : String
deriving DecidableEq

/-- Embedding of the delivery part of `broadcast_cmd` (the admin check and
the message formatting from `get_data` are upstream of the loop and do
not affect delivery accounting).  `subs` is `list_subscribers()`.  After
the loop the handler replies with a text mentioning only `len(subs)`. -/
def broadcast_cmd (subs : List Int) (deliver : Int → Bool) : BroadcastRun :=
  { outcomes := deliverLoop deliver subs,
    reply := "Broadcast sent to " ++ toString subs.length ++ " subscribers." }

/-- Embedding of the delivery part of the scheduled job
`send_toto_update`: the same loop, with no report produced at all. -/
def send_toto_update (subs : List Int) (deliver : Int → Bool) : List (Int × Bool) :=
  deliverLoop deliver subs

/-! ## Helper lemmas -/

/-- A fetch attempt that returned `(None, None)` stores nothing and hands
the empty pair straight back. -/
theorem fetchBranch_none_none (st : CacheState) :
    fetchBranch st (none, none) =
      { jackpot := none, next_draw := none, state := st,
        storeReads := 1, storeWrites := 0, fetches := 1 } := rfl

/-- Component behaviour of the fetch branch for an arbitrary fetch
result. -/
theorem fetchBranch_spec (st : CacheState) (f : Option String × Option String) :
    (fetchBranch st f).jackpot = f.1 ∧
    (fetchBranch st f).next_draw = f.2 ∧
    (fetchBranch st f).fetches = 1 ∧
    (fetchBranch st f).storeReads = 1 ∧
    ((fetchBranch st f).storeWrites ≠ 0 → truthy f.1 = true ∧ truthy f.2 = true) ∧
    ((truthy f.1 = false ∨ truthy f.2 = false) → (fetchBranch st f).state = st) ∧
    (fetchBranch st f).state.memory = st.memory := by
  unfold fetchBranch
  cases h1 : truthy f.2 <;> cases h2 : truthy f.1 <;> simp [h1, h2]

/-- The delivery loop visits every recipient in order, pairing each with
its own outcome, regardless of which deliveries fail. -/
theorem deliverLoop_eq_map (deliver : Int → Bool) (subs : List Int) :
    deliverLoop deliver subs = subs.map fun c => (c, deliver c) := by
  induction subs with
  | nil => rfl
  | cons cid rest ih =>
    unfold deliverLoop
    cases h : deliver cid <;> simp [h, ih]

/-! ## Claims -/

/-- C1: the spec claims `putResult(s)` followed immediately by
`getLatestResult()` returns `s` regardless of the previously stored
DrawState, the store holding at most one row that a new write fully
supersedes.  The code violates this: `next_draw` is the PRIMARY KEY, so
`INSERT OR REPLACE` only supersedes a row carrying the *same* draw date.
Storing a state with a new draw date leaves two rows, and the
`SELECT ... LIMIT 1` read returns the old row, not the one just
written. -/
theorem c1_store_roundtrip_returns_stale_row :
    store_next_draw [("Mon, 01 Jan 2024, 6.30pm", "$1,000,000")]
        "Thu, 04 Jan 2024, 9.30pm" "$2,000,000"
      = [("Mon, 01 Jan 2024, 6.30pm", "$1,000,000"),
         ("Thu, 04 Jan 2024, 9.30pm", "$2,000,000")] ∧
    get_next_draw (store_next_draw [("Mon, 01 Jan 2024, 6.30pm", "$1,000,000")]
        "Thu, 04 Jan 2024, 9.30pm" "$2,000,000")
      = some ("Mon, 01 Jan 2024, 6.30pm", "$1,000,000") := by
  decide

/-- C2 counterexample: the store holds a prior (stale) DrawState, the
fetch fails (`fetch_toto_info()` returns `(None, None)`), yet `get_data`
returns `(None, None)` instead of the prior DrawState — the fetched pair
overwrites the variables read from the store. -/
theorem c2_no_degraded_fallback :
    (get_data ⟨none, [("Mon, 01 Jan 2024, 6.30pm", "$1,000,000")]⟩
        (none, none) ⟨2024, 6, 1, 12, 0, 0, 0⟩).jackpot = none ∧
    (get_data ⟨none, [("Mon, 01 Jan 2024, 6.30pm", "$1,000,000")]⟩
        (none, none) ⟨2024, 6, 1, 12, 0, 0, 0⟩).next_draw = none ∧
    (get_data ⟨none, [("Mon, 01 Jan 2024, 6.30pm", "$1,000,000")]⟩
        (none, none) ⟨2024, 6, 1, 12, 0, 0, 0⟩).fetches = 1 ∧
    is_past_draw "Mon, 01 Jan 2024, 6.30pm" ⟨2024, 6, 1, 12, 0, 0, 0⟩ = true := by
  decide

/-- C2 (amended): whenever `get_data` attempts a fetch and the fetch
fails with `(None, None)`, the call returns absent `(None, None)` even if
a prior DrawState exists; the prior state stays in the store but is not
returned.  A prior DrawState is returned only when it is complete and
fresh, in which case no fetch is attempted. -/
theorem c2_fetch_failure_returns_absent (st : CacheState) (now : PyDateTime)
    (h : (get_data st (none, none) now).fetches = 1) :
    (get_data st (none, none) now).jackpot = none ∧
    (get_data st (none, none) now).next_draw = none ∧
    (get_data st (none, none) now).state = st := by
  unfold get_data at *
  cases hdb : get_next_draw st.db with
  | none => simp [fetchBranch_none_none]
  | some row =>
    obtain ⟨nd, jp⟩ := row
    by_cases hc : (decide (jp = "") || decide (nd = "") || is_past_draw nd now) = true
    · simp [hc, fetchBranch_none_none]
    · rw [hdb] at h
      rw [Bool.not_eq_true] at hc
      simp [hc] at h

/-- C2 witness. -/
theorem c2_fetch_failure_returns_absent_witness :
    (get_data ⟨none, [("Mon, 01 Jan 2024, 6.30pm", "$1,000,000")]⟩
        (none, none) ⟨2024, 6, 1, 12, 0, 0, 0⟩).jackpot = none ∧
    (get_data ⟨none, [("Mon, 01 Jan 2024, 6.30pm", "$1,000,000")]⟩
        (none, none) ⟨2024, 6, 1, 12, 0, 0, 0⟩).next_draw = none ∧
    (get_data ⟨none, [("Mon, 01 Jan 2024, 6.30pm", "$1,000,000")]⟩
        (none, none) ⟨2024, 6, 1, 12, 0, 0, 0⟩).state
      = ⟨none, [("Mon, 01 Jan 2024, 6.30pm", "$1,000,000")]⟩ :=
  c2_fetch_failure_returns_absent _ _ (by decide)

/-- C3 counterexample: the "memory tier" holds a fresh DrawState (the
draw date parses and lies in the future of `now`), yet the `get_data`
call still performs one store read and one fetch and does not return the
memory value — because the source maintains no memory tier at all. -/
theorem c3_memory_tier_not_consulted :
    is_past_draw "Mon, 01 Jan 2024, 6.30pm" ⟨2024, 1, 1, 12, 0, 0, 0⟩ = false ∧
    (get_data ⟨some ("Mon, 01 Jan 2024, 6.30pm", "$1,000,000"), []⟩
        (none, none) ⟨2024, 1, 1, 12, 0, 0, 0⟩).storeReads = 1 ∧
    (get_data ⟨some ("Mon, 01 Jan 2024, 6.30pm", "$1,000,000"), []⟩
        (none, none) ⟨2024, 1, 1, 12, 0, 0, 0⟩).fetches = 1 ∧
    (get_data ⟨some ("Mon, 01 Jan 2024, 6.30pm", "$1,000,000"), []⟩
        (none, none) ⟨2024, 1, 1, 12, 0, 0, 0⟩).next_draw = none := by
  decide

/-- C3 (amended): `get_data` maintains no in-process memory tier: every
call performs exactly one persistent-store read, never writes the memory
component, and its result and store effects are independent of whatever
the memory component holds. -/
theorem c3_every_call_reads_store (m₁ m₂ : Option Row) (db : List Row)
    (f : Option String × Option String) (now : PyDateTime) :
    (get_data ⟨m₁, db⟩ f now).storeReads = 1 ∧
    (get_data ⟨m₁, db⟩ f now).state.memory = m₁ ∧
    (get_data ⟨m₁, db⟩ f now).jackpot = (get_data ⟨m₂, db⟩ f now).jackpot ∧
    (get_data ⟨m₁, db⟩ f now).next_draw = (get_data ⟨m₂, db⟩ f now).next_draw ∧
    (get_data ⟨m₁, db⟩ f now).state.db = (get_data ⟨m₂, db⟩ f now).state.db ∧
    (get_data ⟨m₁, db⟩ f now).fetches = (get_data ⟨m₂, db⟩ f now).fetches := by
  unfold get_data fetchBranch
  cases hdb : get_next_draw db <;> simp [hdb] <;> split <;> (try split) <;> simp

/-- C4 counterexample: with five recipients of which recipient 3 fails,
the reply reported to the admin is byte-for-byte the reply of an
all-successful broadcast, although the succeeded counts differ (4 against
5) — so the report contains no succeeded or failed counts, only the
attempted count. -/
theorem c4_report_ignores_failures :
    (broadcast_cmd [1, 2, 3, 4, 5] (fun c => decide (c ≠ 3))).reply
      = (broadcast_cmd [1, 2, 3, 4, 5] (fun _ => true)).reply ∧
    ((broadcast_cmd [1, 2, 3, 4, 5] (fun c => decide (c ≠ 3))).outcomes.filter
        (fun o => o.2)).length = 4 ∧
    ((broadcast_cmd [1, 2, 3, 4, 5] (fun _ => true)).outcomes.filter
        (fun o => o.2)).length = 5 := by
  decide

/-- C4 (amended): `broadcast_cmd` attempts delivery to every recipient —
a failure for one recipient never prevents attempts to the remaining ones
or aborts the broadcast — and the scheduled `send_toto_update` loop does
the same; but the only report produced is the reply naming the attempted
count `len(subs)`, with no succeeded or failed counts
(`send_toto_update` produces no report at all). -/
theorem c4_attempts_all_reports_attempted_only (subs : List Int) (deliver : Int → Bool) :
    (broadcast_cmd subs deliver).outcomes.map Prod.fst = subs ∧
    (broadcast_cmd subs deliver).outcomes = (subs.map fun c => (c, deliver c)) ∧
    (broadcast_cmd subs deliver).reply
      = "Broadcast sent to " ++ toString subs.length ++ " subscribers." ∧
    send_toto_update subs deliver = (broadcast_cmd subs deliver).outcomes := by
  refine ⟨?_, ?_, rfl, rfl⟩ <;>
    simp [broadcast_cmd, deliverLoop_eq_map, Function.comp_def]

/-- C5: for every drawAt string that parses under the fixed format,
`is_past_draw` returns true exactly when the parsed instant is strictly
before `now` (Python's strict `<` on naive datetimes), and false
otherwise — a draw in the future, and one exactly at the current
instant, is fresh. -/
theorem c5_stale_iff_strictly_before (s : String) (now dt : PyDateTime)
    (h : strptimeFixed (cleanDraw s.data) = some dt) :
    is_past_draw s now = pyLt dt now := by
  unfold is_past_draw
  rw [h]

/-- C5 witness: a draw parsed to exactly the current instant is fresh. -/
theorem c5_stale_iff_strictly_before_witness :
    strptimeFixed (cleanDraw "Mon, 01 Jan 2024, 6.30pm".data)
      = some ⟨2024, 1, 1, 18, 30, 0, 0⟩ ∧
    is_past_draw "Mon, 01 Jan 2024, 6.30pm" ⟨2024, 1, 1, 18, 30, 0, 0⟩
      = pyLt ⟨2024, 1, 1, 18, 30, 0, 0⟩ ⟨2024, 1, 1, 18, 30, 0, 0⟩ ∧
    is_past_draw "Mon, 01 Jan 2024, 6.30pm" ⟨2024, 1, 1, 18, 30, 0, 0⟩ = false :=
  ⟨by decide, c5_stale_iff_strictly_before _ _ _ (by decide), by decide⟩

/-- C6 counterexample: the draw "Mon, 01 Jan 2024, 6.30pm" (18:30
Singapore time) at the physical instant 20:00 Singapore time = 12:00 UTC.
On a host whose local zone is UTC, `datetime.now()` reads 12:00, so
`is_past_draw` declares the already-past draw fresh, while the
Asia/Singapore comparison the claim describes declares it stale. -/
theorem c6_local_clock_differs_from_sgt :
    is_past_draw_at_call "Mon, 01 Jan 2024, 6.30pm"
        ⟨⟨2024, 1, 1, 20, 0, 0, 0⟩, ⟨2024, 1, 1, 12, 0, 0, 0⟩⟩ = false ∧
    specStaleInSGT "Mon, 01 Jan 2024, 6.30pm"
        ⟨⟨2024, 1, 1, 20, 0, 0, 0⟩, ⟨2024, 1, 1, 12, 0, 0, 0⟩⟩ = true := by
  decide

/-- C6 (amended): `is_past_draw` parses the draw timestamp as a naive
datetime and compares it against `datetime.now()`, the host's local
civil clock — `SCHEDULER_TZ` (Asia/Singapore) is not consulted.  The
comparison coincides with the fixed-zone comparison the spec describes
exactly on hosts whose local zone reads the same civil time as
Asia/Singapore. -/
theorem c6_agrees_when_host_zone_is_sgt (s : String) (clock : Clock)
    (h : clock.localNow = clock.sgtNow) :
    is_past_draw_at_call s clock = specStaleInSGT s clock := by
  unfold is_past_draw_at_call specStaleInSGT is_past_draw
  rw [h]

/-- C6 witness. -/
theorem c6_agrees_when_host_zone_is_sgt_witness :
    is_past_draw_at_call "Mon, 01 Jan 2024, 6.30pm"
        ⟨⟨2024, 6, 1, 12, 0, 0, 0⟩, ⟨2024, 6, 1, 12, 0, 0, 0⟩⟩
      = specStaleInSGT "Mon, 01 Jan 2024, 6.30pm"
        ⟨⟨2024, 6, 1, 12, 0, 0, 0⟩, ⟨2024, 6, 1, 12, 0, 0, 0⟩⟩ :=
  c6_agrees_when_host_zone_is_sgt _ _ (by rfl)

/-- C7 counterexample: memory tier empty, store holds a fresh complete
DrawState.  `get_data` does return it with zero fetches, but it does not
adopt it into any memory tier — the memory component stays empty, since
the source has no memory tier to populate. -/
theorem c7_store_hit_populates_no_memory :
    is_past_draw "Mon, 01 Jan 2024, 6.30pm" ⟨2024, 1, 1, 12, 0, 0, 0⟩ = false ∧
    (get_data ⟨none, [("Mon, 01 Jan 2024, 6.30pm", "$1,000,000")]⟩
        (none, none) ⟨2024, 1, 1, 12, 0, 0, 0⟩).next_draw
      = some "Mon, 01 Jan 2024, 6.30pm" ∧
    (get_data ⟨none, [("Mon, 01 Jan 2024, 6.30pm", "$1,000,000")]⟩
        (none, none) ⟨2024, 1, 1, 12, 0, 0, 0⟩).fetches = 0 ∧
    (get_data ⟨none, [("Mon, 01 Jan 2024, 6.30pm", "$1,000,000")]⟩
        (none, none) ⟨2024, 1, 1, 12, 0, 0, 0⟩).state.memory = none := by
  decide

/-- C7 (amended): whenever the store's row is complete (both fields
non-empty) and its draw date is not stale, `get_data` returns that row
performing zero fetches and zero store writes, and leaves the state —
including the untouched memory component — exactly as it was. -/
theorem c7_fresh_store_row_served_without_fetch (st : CacheState)
    (f : Option String × Option String) (now : PyDateTime) (nd jp : String)
    (h1 : get_next_draw st.db = some (nd, jp)) (h2 : jp ≠ "") (h3 : nd ≠ "")
    (h4 : is_past_draw nd now = false) :
    get_data st f now =
      { jackpot := some jp, next_draw := some nd, state := st,
        storeReads := 1, storeWrites := 0, fetches := 0 } := by
  unfold get_data
  rw [h1]
  simp [h2, h3, h4]

/-- C7 witness. -/
theorem c7_fresh_store_row_served_without_fetch_witness :
    get_data ⟨none, [("Mon, 01 Jan 2024, 6.30pm", "$1,000,000")]⟩
        (none, none) ⟨2024, 1, 1, 12, 0, 0, 0⟩ =
      { jackpot := some "$1,000,000", next_draw := some "Mon, 01 Jan 2024, 6.30pm",
        state := ⟨none, [("Mon, 01 Jan 2024, 6.30pm", "$1,000,000")]⟩,
        storeReads := 1, storeWrites := 0, fetches := 0 } :=
  c7_fresh_store_row_served_without_fetch _ _ _ _ _ (by rfl) (by decide) (by decide)
    (by decide)

/-- C8: for every input string on which parsing of the canonicalized
timestamp fails, `is_past_draw` returns true (fail safe toward
refetching); the embedding is a total Bool-valued function, mirroring the
blanket `except Exception: return True`, so no parse error ever reaches
the caller. -/
theorem c8_parse_failure_is_stale (s : String) (now : PyDateTime)
    (h : strptimeFixed (cleanDraw s.data) = none) :
    is_past_draw s now = true := by
  unfold is_past_draw
  rw [h]

/-- C8 witness. -/
theorem c8_parse_failure_is_stale_witness :
    strptimeFixed (cleanDraw "next Thursday".data) = none ∧
    is_past_draw "next Thursday" ⟨2024, 1, 1, 0, 0, 0, 0⟩ = true :=
  ⟨by decide, c8_parse_failure_is_stale _ _ (by decide)⟩

/-- C9: on every `get_data` call, a store write happens only when both
fetched fields are present and non-empty (Python truthiness); when a
fetch was attempted, its pair — partial or not — is returned to the
caller; and a fetch missing either field leaves the store untouched. -/
theorem c9_no_partial_persist (st : CacheState)
    (f : Option String × Option String) (now : PyDateTime) :
    ((get_data st f now).storeWrites ≠ 0 →
      truthy f.1 = true ∧ truthy f.2 = true) ∧
    ((get_data st f now).fetches = 1 →
      (get_data st f now).jackpot = f.1 ∧ (get_data st f now).next_draw = f.2) ∧
    ((truthy f.1 = false ∨ truthy f.2 = false) →
      (get_data st f now).state = st) := by
  unfold get_data
  cases hdb : get_next_draw st.db with
  | none =>
    simp only
    exact ⟨(fetchBranch_spec st f).2.2.2.2.1,
      fun _ => ⟨(fetchBranch_spec st f).1, (fetchBranch_spec st f).2.1⟩,
      (fetchBranch_spec st f).2.2.2.2.2.1⟩
  | some row =>
    obtain ⟨nd, jp⟩ := row
    by_cases hc : (decide (jp = "") || decide (nd = "") || is_past_draw nd now) = true
    · simp only [hc, if_true]
      exact ⟨(fetchBranch_spec st f).2.2.2.2.1,
        fun _ => ⟨(fetchBranch_spec st f).1, (fetchBranch_spec st f).2.1⟩,
        (fetchBranch_spec st f).2.2.2.2.2.1⟩
    · rw [Bool.not_eq_true] at hc
      simp [hc]

/-- C9 witness: a stale store plus a partial fetch result — the partial
pair is returned but nothing is written; and a complete fetch result is
indeed truthy in both fields. -/
theorem c9_no_partial_persist_witness :
    (truthy (some "$2,000,000") = true ∧
      truthy (some "Thu, 04 Jan 2024, 9.30pm") = true) ∧
    ((get_data ⟨none, [("Mon, 01 Jan 2024, 6.30pm", "$1,000,000")]⟩
        (some "$5,000,000", none) ⟨2024, 6, 1, 12, 0, 0, 0⟩).jackpot
        = some "$5,000,000" ∧
      (get_data ⟨none, [("Mon, 01 Jan 2024, 6.30pm", "$1,000,000")]⟩
        (some "$5,000,000", none) ⟨2024, 6, 1, 12, 0, 0, 0⟩).next_draw = none) ∧
    (get_data ⟨none, [("Mon, 01 Jan 2024, 6.30pm", "$1,000,000")]⟩
        (some "$5,000,000", none) ⟨2024, 6, 1, 12, 0, 0, 0⟩).state
      = ⟨none, [("Mon, 01 Jan 2024, 6.30pm", "$1,000,000")]⟩ :=
  ⟨(c9_no_partial_persist ⟨none, [("Mon, 01 Jan 2024, 6.30pm", "$1,000,000")]⟩
      (some "$2,000,000", some "Thu, 04 Jan 2024, 9.30pm")
      ⟨2024, 6, 1, 12, 0, 0, 0⟩).1 (by decide),
    (c9_no_partial_persist ⟨none, [("Mon, 01 Jan 2024, 6.30pm", "$1,000,000")]⟩
      (some "$5,000,000", none) ⟨2024, 6, 1, 12, 0, 0, 0⟩).2.1 (by decide),
    (c9_no_partial_persist ⟨none, [("Mon, 01 Jan 2024, 6.30pm", "$1,000,000")]⟩
      (some "$5,000,000", none) ⟨2024, 6, 1, 12, 0, 0, 0⟩).2.2 (Or.inr (by decide))⟩

/-- C10 counterexample: `webdriver.Chrome(options=options)` runs before
the `try` block, so a failure constructing the WebDriver propagates to
the caller instead of being mapped to `(None, None)`. -/
theorem c10_driver_init_failure_raises :
    fetch_toto_info_selenium
        { driverInitOk := false, getOk := true,
          jackpotText := some "$1,000,000",
          drawText := some "Mon, 01 Jan 2024, 6.30pm" }
      = Except.error "WebDriverException" := rfl

/-- C10 (amended): provided the WebDriver construction succeeds, every
failure during page load or element extraction is caught and mapped to
`(None, None)`, so the call returns normally with either `(None, None)`
or a pair of scraped strings; a WebDriver construction failure, which
happens before the `try` block, propagates to the caller. -/
theorem c10_total_after_driver_init (env : FetchEnv) (h : env.driverInitOk = true) :
    fetch_toto_info_selenium env = Except.ok (none, none) ∨
    ∃ j d, fetch_toto_info_selenium env = Except.ok (some j, some d) := by
  unfold fetch_toto_info_selenium
  rw [h]
  cases hg : env.getOk <;> cases hj : env.jackpotText <;> cases hd : env.drawText <;>
    simp [hg, hj, hd]

/-- C10 witness: a page-load failure inside the try block is caught. -/
theorem c10_total_after_driver_init_witness :
    fetch_toto_info_selenium
        { driverInitOk := true, getOk := false, jackpotText := none, drawText := none }
      = Except.ok (none, none) ∨
    ∃ j d, fetch_toto_info_selenium
        { driverInitOk := true, getOk := false, jackpotText := none, drawText := none }
      = Except.ok (some j, some d) :=
  c10_total_after_driver_init _ (by rfl)

end TotoBot
